import Mathlib

/-!
Verification of the hashfuncs vectorized hashing dispatch engine
(src/src/hashfuncs_extension.cpp).

The data model follows the specification: a column batch is physical
storage (slot to value), a Row Indirection Map (logical index to physical
slot, the selection vector of ToUnifiedFormat) and a physical validity
bitmap.  An output row is an optional digest, none standing for an output
row whose validity bit was cleared.

The hash primitives declared in xxhash.h, rapidhash.h and MurmurHash3.h
are not part of the sources under src; the specification treats them as
opaque deterministic byte-hashing functions of a fixed digest and seed
width, so they are modelled here as concrete deterministic mixing
functions that satisfy exactly that contract.
-/

/-- A byte sequence: the view handed to a hash primitive. -/
abbrev Bytes := List Nat

/-- The HashAlgorithm enumeration of hashfuncs_extension.cpp (lines 16 to 27). -/
inductive HashAlgorithm where
  | XXH32
  | XXH64
  | XXH3_64
  | XXH3_128
  | RAPIDHASH
  | MURMURHASH3_32
  | MURMURHASH3_128
  | MURMURHASH3_X64_128
deriving DecidableEq

/-- The hash_seed_type trait (lines 30 to 88): seed width in bits per algorithm. -/
def hash_seed_bits : HashAlgorithm → Nat
  | .XXH32 => 32
  | .XXH64 => 64
  | .XXH3_64 => 64
  | .XXH3_128 => 64
  | .RAPIDHASH => 64
  | .MURMURHASH3_32 => 32
  | .MURMURHASH3_128 => 32
  | .MURMURHASH3_X64_128 => 32

/-- Digest width in bits per algorithm: the ResultType each registered wrapper
instantiates (uint32_t, uint64_t or uhugeint_t; lines 487 to 570). -/
def digestBits : HashAlgorithm → Nat
  | .XXH32 => 32
  | .XXH64 => 64
  | .XXH3_64 => 64
  | .XXH3_128 => 128
  | .RAPIDHASH => 64
  | .MURMURHASH3_32 => 32
  | .MURMURHASH3_128 => 128
  | .MURMURHASH3_X64_128 => 128

/-- The host engine 128-bit unsigned integer element: a pair of 64-bit halves,
low half first, as the specification describes the 128-bit output element. -/
structure uhugeint_t where
  lower : Nat
  upper : Nat
deriving DecidableEq

/-- The XXH128_hash_t result record of xxhash.h: low and high 64-bit words. -/
structure XXH128_hash_t where
  low64 : Nat
  high64 : Nat
deriving DecidableEq

/-- Deterministic byte mixer used to model the opaque hash primitives: a fold
over the byte sequence, every step reduced modulo the digest word modulus. -/
def mixFold (mult m : Nat) : Nat → Bytes → Nat
  | acc, [] => acc % m
  | acc, b :: rest => mixFold mult m ((acc * mult + b + 1) % m) rest

/-- Modelled from the spec: XXH32 of xxhash.h is not under src; section 4.3
fixes it as a pure deterministic function from bytes and a 32-bit seed to a
32-bit digest. -/
def XXH32 (bs : Bytes) (seed : Nat) : Nat :=
  mixFold 131 (2 ^ 32) (seed + 1) bs

/-- Modelled from the spec: XXH64 of xxhash.h is not under src; section 4.3
fixes it as a pure deterministic function from bytes and a 64-bit seed to a
64-bit digest. -/
def XXH64 (bs : Bytes) (seed : Nat) : Nat :=
  mixFold 257 (2 ^ 64) (seed + 2) bs

/-- Modelled from the spec: the seeded XXH3 64-bit entry of xxhash.h is not
under src; section 4.3 fixes it as a pure deterministic function from bytes
and a 64-bit seed to a 64-bit digest. -/
def XXH3_64bits_withSeed (bs : Bytes) (seed : Nat) : Nat :=
  mixFold 263 (2 ^ 64) (seed + 3) bs

/-- Modelled from the spec: the unseeded XXH3 64-bit entry of xxhash.h is not
under src; section 4.2 makes the unseeded entry behaviourally equivalent to a
seed of zero. -/
def XXH3_64bits (bs : Bytes) : Nat :=
  XXH3_64bits_withSeed bs 0

/-- Modelled from the spec: the seeded XXH3 128-bit entry of xxhash.h is not
under src; section 4.3 fixes it as a pure deterministic function from bytes
and a 64-bit seed to a 128-bit digest returned as low and high words. -/
def XXH3_128bits_withSeed (bs : Bytes) (seed : Nat) : XXH128_hash_t :=
  { low64 := mixFold 269 (2 ^ 64) (seed + 4) bs
    high64 := mixFold 271 (2 ^ 64) (seed + 5) bs }

/-- Modelled from the spec: the unseeded XXH3 128-bit entry of xxhash.h is not
under src; section 4.2 makes the unseeded entry behaviourally equivalent to a
seed of zero. -/
def XXH3_128bits (bs : Bytes) : XXH128_hash_t :=
  XXH3_128bits_withSeed bs 0

/-- Modelled from the spec: the seeded rapidhash entry of rapidhash.h is not
under src; section 4.3 fixes it as a pure deterministic function from bytes
and a 64-bit seed to a 64-bit digest. -/
def rapidhash_withSeed (bs : Bytes) (seed : Nat) : Nat :=
  mixFold 277 (2 ^ 64) (seed + 6) bs

/-- Modelled from the spec: the unseeded rapidhash entry of rapidhash.h is not
under src; section 4.2 makes the unseeded entry behaviourally equivalent to a
seed of zero. -/
def rapidhash (bs : Bytes) : Nat :=
  rapidhash_withSeed bs 0

/-- Modelled from the spec: MurmurHash3_x86_32 of MurmurHash3.h is not under
src; section 4.3 fixes it as a pure deterministic function from bytes and a
32-bit seed to a 32-bit digest. -/
def MurmurHash3_x86_32 (bs : Bytes) (seed : Nat) : Nat :=
  mixFold 281 (2 ^ 32) (seed + 7) bs

/-- Modelled from the spec: MurmurHash3_x86_128 of MurmurHash3.h is not under
src; it writes its 128-bit digest through the output pointer low half first,
matching the low-half-first output element of section 3. -/
def MurmurHash3_x86_128 (bs : Bytes) (seed : Nat) : uhugeint_t :=
  { lower := mixFold 283 (2 ^ 64) (seed + 8) bs
    upper := mixFold 293 (2 ^ 64) (seed + 9) bs }

/-- Modelled from the spec: MurmurHash3_x64_128 of MurmurHash3.h is not under
src; it writes its 128-bit digest through the output pointer low half first,
matching the low-half-first output element of section 3. -/
def MurmurHash3_x64_128 (bs : Bytes) (seed : Nat) : uhugeint_t :=
  { lower := mixFold 307 (2 ^ 64) (seed + 10) bs
    upper := mixFold 311 (2 ^ 64) (seed + 11) bs }

/-- A digest of the declared width of the algorithm, mirroring the ResultType
instantiations uint32_t, uint64_t and uhugeint_t of the wrappers. -/
inductive Digest where
  | D32 (v : Nat)
  | D64 (v : Nat)
  | D128 (v : uhugeint_t)
deriving DecidableEq

/-- The per-algorithm seeded primitive call chain shared by the seeded
extraction paths (lines 109 to 140 and 374 to 401). -/
def hashBytesSeeded (alg : HashAlgorithm) (bs : Bytes) (seed : Nat) : Digest :=
  match alg with
  | .XXH32 => .D32 (XXH32 bs seed)
  | .XXH64 => .D64 (XXH64 bs seed)
  | .XXH3_64 => .D64 (XXH3_64bits_withSeed bs seed)
  | .RAPIDHASH => .D64 (rapidhash_withSeed bs seed)
  | .MURMURHASH3_32 => .D32 (MurmurHash3_x86_32 bs seed)
  | .MURMURHASH3_128 => .D128 (MurmurHash3_x86_128 bs seed)
  | .MURMURHASH3_X64_128 => .D128 (MurmurHash3_x64_128 bs seed)
  | .XXH3_128 =>
      let hash128 := XXH3_128bits_withSeed bs seed
      .D128 { lower := hash128.low64, upper := hash128.high64 }

/-- The per-algorithm unseeded primitive call chain shared by the unseeded
extraction paths (lines 157 to 188 and 224 to 251): XXH32, XXH64 and the
MurmurHash3 variants are called with a literal zero seed, while XXH3 and
rapidhash use their dedicated unseeded entries. -/
def hashBytesNoSeed (alg : HashAlgorithm) (bs : Bytes) : Digest :=
  match alg with
  | .XXH32 => .D32 (XXH32 bs 0)
  | .XXH64 => .D64 (XXH64 bs 0)
  | .XXH3_64 => .D64 (XXH3_64bits bs)
  | .RAPIDHASH => .D64 (rapidhash bs)
  | .MURMURHASH3_32 => .D32 (MurmurHash3_x86_32 bs 0)
  | .MURMURHASH3_128 => .D128 (MurmurHash3_x86_128 bs 0)
  | .MURMURHASH3_X64_128 => .D128 (MurmurHash3_x64_128 bs 0)
  | .XXH3_128 =>
      let hash128 := XXH3_128bits bs
      .D128 { lower := hash128.low64, upper := hash128.high64 }

/-- Scalar type tags of the closed dispatch switch, plus INTERVAL as a
representative tag outside the supported set (the default switch arm). -/
inductive LogicalTypeId where
  | BLOB
  | VARCHAR
  | HUGEINT
  | UHUGEINT
  | USMALLINT
  | UINTEGER
  | INTEGER
  | BIGINT
  | UBIGINT
  | SMALLINT
  | UTINYINT
  | TINYINT
  | FLOAT
  | DOUBLE
  | DATE
  | TIME
  | INTERVAL
deriving DecidableEq

/-- Name of a type tag, as ToString renders it in the exception message. -/
def typeName : LogicalTypeId → String
  | .BLOB => "BLOB"
  | .VARCHAR => "VARCHAR"
  | .HUGEINT => "HUGEINT"
  | .UHUGEINT => "UHUGEINT"
  | .USMALLINT => "USMALLINT"
  | .UINTEGER => "UINTEGER"
  | .INTEGER => "INTEGER"
  | .BIGINT => "BIGINT"
  | .UBIGINT => "UBIGINT"
  | .SMALLINT => "SMALLINT"
  | .UTINYINT => "UTINYINT"
  | .TINYINT => "TINYINT"
  | .FLOAT => "FLOAT"
  | .DOUBLE => "DOUBLE"
  | .DATE => "DATE"
  | .TIME => "TIME"
  | .INTERVAL => "INTERVAL"

/-- The NotImplementedException message of the default switch arms
(lines 326 and 477). -/
def unsupportedMsg (t : LogicalTypeId) : String :=
  "Unsupported type for XXH hash: " ++ typeName t

/-- A physical storage slot: a fixed-width bit pattern or a variable-length
payload (string_t covers both text and blob). -/
inductive ScalarValue where
  | fixed (bits : Nat)
  | varlen (payload : Bytes)
deriving DecidableEq

/-- Reinterpret a slot as a fixed-width bit pattern, as GetData of a numeric
TargetType does; a variable-length slot read this way is ill typed and
modelled as zero. -/
def fixedBits : ScalarValue → Nat
  | .fixed bits => bits
  | .varlen _ => 0

/-- Reinterpret a slot as a string_t payload, as GetData of string_t does; a
fixed-width slot read this way is ill typed and modelled as empty. -/
def varBytes : ScalarValue → Bytes
  | .fixed _ => []
  | .varlen payload => payload

/-- The ToUnifiedFormat view of a vector: the Row Indirection Map sel
(logical index to physical slot) plus the physical validity bitmap. -/
structure UnifiedVectorFormat where
  sel : Nat → Nat
  validity : Nat → Bool

/-- An input column batch: declared type tag, physical storage and its
unified view. -/
structure InputVector where
  typeId : LogicalTypeId
  data : Nat → ScalarValue
  vdata : UnifiedVectorFormat

/-- A seed column batch: physical seed values and their unified view. -/
structure SeedVector where
  data : Nat → Nat
  vdata : UnifiedVectorFormat

/-- The vector representation chosen for the result. -/
inductive VectorType where
  | CONSTANT_VECTOR
  | FLAT_VECTOR
deriving DecidableEq

/-- The output column batch: its representation and one optional digest per
row; none models an output row whose validity bit was cleared. -/
structure OutputVector where
  vtype : VectorType
  rows : List (Option Digest)
deriving DecidableEq

/-- Little-endian byte view of a fixed-width bit pattern: the raw in-memory
representation that the fixed-type paths hash as-is. -/
def toLEBytes : Nat → Nat → Bytes
  | 0, _ => []
  | w + 1, n => n % 256 :: toLEBytes w (n / 256)

/-- Loop body of hash_fixed_type_generic (lines 150 to 189): the validity bit
is read at the logical index i, the bytes at the selection-resolved physical
slot sel i. -/
def hash_fixed_row (alg : HashAlgorithm) (width : Nat) (vdata : UnifiedVectorFormat)
    (inputs : Nat → Nat) (i : Nat) : Option Digest :=
  if !(vdata.validity i) then
    none
  else
    some (hashBytesNoSeed alg (toLEBytes width (inputs (vdata.sel i))))

/-- hash_fixed_type_generic (lines 145 to 190): the unseeded fixed-width
extraction loop. -/
def hash_fixed_type_generic (alg : HashAlgorithm) (width : Nat)
    (vdata : UnifiedVectorFormat) (inputs : Nat → Nat) (row_count : Nat) :
    List (Option Digest) :=
  (List.range row_count).map (hash_fixed_row alg width vdata inputs)

/-- Loop body of hash_fixed_type_generic_with_seed (lines 100 to 141): both
validity bits are read at the logical index i, the input bytes and the seed
value at the selection-resolved physical slots. -/
def hash_fixed_row_with_seed (alg : HashAlgorithm) (width : Nat)
    (input_vdata : UnifiedVectorFormat) (inputs : Nat → Nat)
    (seed_vdata : UnifiedVectorFormat) (seeds : Nat → Nat) (i : Nat) :
    Option Digest :=
  if !(input_vdata.validity i) || !(seed_vdata.validity i) then
    none
  else
    some (hashBytesSeeded alg (toLEBytes width (inputs (input_vdata.sel i)))
      (seeds (seed_vdata.sel i)))

/-- hash_fixed_type_generic_with_seed (lines 91 to 142): the seeded
fixed-width extraction loop. -/
def hash_fixed_type_generic_with_seed (alg : HashAlgorithm) (width : Nat)
    (input_vdata : UnifiedVectorFormat) (inputs : Nat → Nat)
    (seed_vdata : UnifiedVectorFormat) (seeds : Nat → Nat) (row_count : Nat) :
    List (Option Digest) :=
  (List.range row_count).map
    (hash_fixed_row_with_seed alg width input_vdata inputs seed_vdata seeds)

/-- Loop body of the inline VARCHAR and BLOB arm of hashfunc_generic
(lines 217 to 252): validity at the logical index i, payload at sel i. -/
def hash_string_row (alg : HashAlgorithm) (vdata : UnifiedVectorFormat)
    (inputs : Nat → Bytes) (i : Nat) : Option Digest :=
  if !(vdata.validity i) then
    none
  else
    some (hashBytesNoSeed alg (inputs (vdata.sel i)))

/-- The inline VARCHAR and BLOB loop of hashfunc_generic (lines 214 to 254). -/
def hash_string_rows (alg : HashAlgorithm) (vdata : UnifiedVectorFormat)
    (inputs : Nat → Bytes) (row_count : Nat) : List (Option Digest) :=
  (List.range row_count).map (hash_string_row alg vdata inputs)

/-- Loop body of the inline VARCHAR and BLOB arm of hashfunc_generic_with_seed
(lines 365 to 402). -/
def hash_string_row_with_seed (alg : HashAlgorithm)
    (input_vdata : UnifiedVectorFormat) (inputs : Nat → Bytes)
    (seed_vdata : UnifiedVectorFormat) (seeds : Nat → Nat) (i : Nat) :
    Option Digest :=
  if !(input_vdata.validity i) || !(seed_vdata.validity i) then
    none
  else
    some (hashBytesSeeded alg (inputs (input_vdata.sel i))
      (seeds (seed_vdata.sel i)))

/-- The inline VARCHAR and BLOB loop of hashfunc_generic_with_seed
(lines 360 to 404). -/
def hash_string_rows_with_seed (alg : HashAlgorithm)
    (input_vdata : UnifiedVectorFormat) (inputs : Nat → Bytes)
    (seed_vdata : UnifiedVectorFormat) (seeds : Nat → Nat) (row_count : Nat) :
    List (Option Digest) :=
  (List.range row_count).map
    (hash_string_row_with_seed alg input_vdata inputs seed_vdata seeds)

/-- The closed type switch of hashfunc_generic (lines 213 to 327): one arm per
supported tag, the default arm throwing NotImplementedException. -/
def dispatch_rows (alg : HashAlgorithm) (args : InputVector) (row_count : Nat) :
    Except String (List (Option Digest)) :=
  match args.typeId with
  | .BLOB | .VARCHAR =>
      .ok (hash_string_rows alg args.vdata (fun p => varBytes (args.data p)) row_count)
  | .HUGEINT =>
      .ok (hash_fixed_type_generic alg 16 args.vdata (fun p => fixedBits (args.data p)) row_count)
  | .UHUGEINT =>
      .ok (hash_fixed_type_generic alg 16 args.vdata (fun p => fixedBits (args.data p)) row_count)
  | .USMALLINT =>
      .ok (hash_fixed_type_generic alg 2 args.vdata (fun p => fixedBits (args.data p)) row_count)
  | .UINTEGER =>
      .ok (hash_fixed_type_generic alg 4 args.vdata (fun p => fixedBits (args.data p)) row_count)
  | .INTEGER =>
      .ok (hash_fixed_type_generic alg 4 args.vdata (fun p => fixedBits (args.data p)) row_count)
  | .BIGINT =>
      .ok (hash_fixed_type_generic alg 8 args.vdata (fun p => fixedBits (args.data p)) row_count)
  | .UBIGINT =>
      .ok (hash_fixed_type_generic alg 8 args.vdata (fun p => fixedBits (args.data p)) row_count)
  | .SMALLINT =>
      .ok (hash_fixed_type_generic alg 2 args.vdata (fun p => fixedBits (args.data p)) row_count)
  | .UTINYINT =>
      .ok (hash_fixed_type_generic alg 1 args.vdata (fun p => fixedBits (args.data p)) row_count)
  | .TINYINT =>
      .ok (hash_fixed_type_generic alg 1 args.vdata (fun p => fixedBits (args.data p)) row_count)
  | .FLOAT =>
      .ok (hash_fixed_type_generic alg 4 args.vdata (fun p => fixedBits (args.data p)) row_count)
  | .DOUBLE =>
      .ok (hash_fixed_type_generic alg 8 args.vdata (fun p => fixedBits (args.data p)) row_count)
  | .DATE =>
      .ok (hash_fixed_type_generic alg 4 args.vdata (fun p => fixedBits (args.data p)) row_count)
  | .TIME =>
      .ok (hash_fixed_type_generic alg 8 args.vdata (fun p => fixedBits (args.data p)) row_count)
  | _ => .error (unsupportedMsg args.typeId)

/-- hashfunc_generic (lines 193 to 333): empty-chunk early return with a
constant result, then the closed type switch, then the single-row constant
collapse. -/
def hashfunc_generic (alg : HashAlgorithm) (args : InputVector) (row_count : Nat) :
    Except String OutputVector :=
  if row_count = 0 then
    .ok { vtype := .CONSTANT_VECTOR, rows := [] }
  else
    match dispatch_rows alg args row_count with
    | .error e => .error e
    | .ok rows =>
        .ok { vtype := if row_count = 1 then .CONSTANT_VECTOR else .FLAT_VECTOR
              rows := rows }

/-- The closed type switch of hashfunc_generic_with_seed (lines 359 to 478). -/
def dispatch_rows_with_seed (alg : HashAlgorithm) (args : InputVector)
    (row_count : Nat) (sv : SeedVector) : Except String (List (Option Digest)) :=
  match args.typeId with
  | .BLOB | .VARCHAR =>
      .ok (hash_string_rows_with_seed alg args.vdata (fun p => varBytes (args.data p))
        sv.vdata sv.data row_count)
  | .HUGEINT =>
      .ok (hash_fixed_type_generic_with_seed alg 16 args.vdata
        (fun p => fixedBits (args.data p)) sv.vdata sv.data row_count)
  | .UHUGEINT =>
      .ok (hash_fixed_type_generic_with_seed alg 16 args.vdata
        (fun p => fixedBits (args.data p)) sv.vdata sv.data row_count)
  | .USMALLINT =>
      .ok (hash_fixed_type_generic_with_seed alg 2 args.vdata
        (fun p => fixedBits (args.data p)) sv.vdata sv.data row_count)
  | .UINTEGER =>
      .ok (hash_fixed_type_generic_with_seed alg 4 args.vdata
        (fun p => fixedBits (args.data p)) sv.vdata sv.data row_count)
  | .INTEGER =>
      .ok (hash_fixed_type_generic_with_seed alg 4 args.vdata
        (fun p => fixedBits (args.data p)) sv.vdata sv.data row_count)
  | .BIGINT =>
      .ok (hash_fixed_type_generic_with_seed alg 8 args.vdata
        (fun p => fixedBits (args.data p)) sv.vdata sv.data row_count)
  | .UBIGINT =>
      .ok (hash_fixed_type_generic_with_seed alg 8 args.vdata
        (fun p => fixedBits (args.data p)) sv.vdata sv.data row_count)
  | .SMALLINT =>
      .ok (hash_fixed_type_generic_with_seed alg 2 args.vdata
        (fun p => fixedBits (args.data p)) sv.vdata sv.data row_count)
  | .UTINYINT =>
      .ok (hash_fixed_type_generic_with_seed alg 1 args.vdata
        (fun p => fixedBits (args.data p)) sv.vdata sv.data row_count)
  | .TINYINT =>
      .ok (hash_fixed_type_generic_with_seed alg 1 args.vdata
        (fun p => fixedBits (args.data p)) sv.vdata sv.data row_count)
  | .FLOAT =>
      .ok (hash_fixed_type_generic_with_seed alg 4 args.vdata
        (fun p => fixedBits (args.data p)) sv.vdata sv.data row_count)
  | .DOUBLE =>
      .ok (hash_fixed_type_generic_with_seed alg 8 args.vdata
        (fun p => fixedBits (args.data p)) sv.vdata sv.data row_count)
  | .DATE =>
      .ok (hash_fixed_type_generic_with_seed alg 4 args.vdata
        (fun p => fixedBits (args.data p)) sv.vdata sv.data row_count)
  | .TIME =>
      .ok (hash_fixed_type_generic_with_seed alg 8 args.vdata
        (fun p => fixedBits (args.data p)) sv.vdata sv.data row_count)
  | _ => .error (unsupportedMsg args.typeId)

/-- hashfunc_generic_with_seed (lines 336 to 484): empty-chunk early return
with a constant result, the closed type switch, the single-row constant
collapse. -/
def hashfunc_generic_with_seed (alg : HashAlgorithm) (args : InputVector)
    (row_count : Nat) (sv : SeedVector) : Except String OutputVector :=
  if row_count = 0 then
    .ok { vtype := .CONSTANT_VECTOR, rows := [] }
  else
    match dispatch_rows_with_seed alg args row_count sv with
    | .error e => .error e
    | .ok rows =>
        .ok { vtype := if row_count = 1 then .CONSTANT_VECTOR else .FLAT_VECTOR
              rows := rows }

/-- Membership in the closed supported set of the dispatch switch. -/
def isSupportedType : LogicalTypeId → Bool
  | .BLOB => true
  | .VARCHAR => true
  | .HUGEINT => true
  | .UHUGEINT => true
  | .USMALLINT => true
  | .UINTEGER => true
  | .INTEGER => true
  | .BIGINT => true
  | .UBIGINT => true
  | .SMALLINT => true
  | .UTINYINT => true
  | .TINYINT => true
  | .FLOAT => true
  | .DOUBLE => true
  | .DATE => true
  | .TIME => true
  | .INTERVAL => false

/-- The byte-extraction strategy each supported tag selects: none for a tag
outside the supported set. -/
def extractor : LogicalTypeId → Option (ScalarValue → Bytes)
  | .BLOB => some varBytes
  | .VARCHAR => some varBytes
  | .HUGEINT => some (fun v => toLEBytes 16 (fixedBits v))
  | .UHUGEINT => some (fun v => toLEBytes 16 (fixedBits v))
  | .USMALLINT => some (fun v => toLEBytes 2 (fixedBits v))
  | .UINTEGER => some (fun v => toLEBytes 4 (fixedBits v))
  | .INTEGER => some (fun v => toLEBytes 4 (fixedBits v))
  | .BIGINT => some (fun v => toLEBytes 8 (fixedBits v))
  | .UBIGINT => some (fun v => toLEBytes 8 (fixedBits v))
  | .SMALLINT => some (fun v => toLEBytes 2 (fixedBits v))
  | .UTINYINT => some (fun v => toLEBytes 1 (fixedBits v))
  | .TINYINT => some (fun v => toLEBytes 1 (fixedBits v))
  | .FLOAT => some (fun v => toLEBytes 4 (fixedBits v))
  | .DOUBLE => some (fun v => toLEBytes 8 (fixedBits v))
  | .DATE => some (fun v => toLEBytes 4 (fixedBits v))
  | .TIME => some (fun v => toLEBytes 8 (fixedBits v))
  | .INTERVAL => none

/-- The 128-bit digest of a 128-bit algorithm as one integer, the low 64-bit
word of the primitive least significant; zero for the other algorithms. -/
def digest128Seeded (alg : HashAlgorithm) (bs : Bytes) (seed : Nat) : Nat :=
  match alg with
  | .XXH3_128 =>
      (XXH3_128bits_withSeed bs seed).low64 + 2 ^ 64 * (XXH3_128bits_withSeed bs seed).high64
  | .MURMURHASH3_128 =>
      (MurmurHash3_x86_128 bs seed).lower + 2 ^ 64 * (MurmurHash3_x86_128 bs seed).upper
  | .MURMURHASH3_X64_128 =>
      (MurmurHash3_x64_128 bs seed).lower + 2 ^ 64 * (MurmurHash3_x64_128 bs seed).upper
  | _ => 0

/-- One-row INTEGER batch over a non-identity Row Indirection Map: logical
row 0 maps to physical slot 1, whose validity bit is clear, while the bit at
physical position 0 is set. -/
def c1Batch : InputVector :=
  { typeId := .INTEGER
    data := fun p => .fixed (if p = 0 then 7 else 11)
    vdata := { sel := fun _ => 1, validity := fun p => p == 0 } }

/-- One-row BIGINT batch over a non-identity Row Indirection Map: the value of
logical row 0 lives in physical slot 1 and is null there, yet the bit at
physical position 0 is set. -/
def c2Batch : InputVector :=
  { typeId := .BIGINT
    data := fun p => .fixed (if p = 0 then 3 else 250)
    vdata := { sel := fun _ => 1, validity := fun p => p == 0 } }

/-- One-row INTEGER batch with an identity map and a valid value. -/
def c3Batch : InputVector :=
  { typeId := .INTEGER
    data := fun _ => .fixed 9
    vdata := { sel := fun p => p, validity := fun _ => true } }

/-- Seed column over a non-identity Row Indirection Map: the seed of logical
row 0 lives in physical slot 1 and is null there, yet the bit at physical
position 0 is set. -/
def c3Seed : SeedVector :=
  { data := fun p => if p = 0 then 5 else 42
    vdata := { sel := fun _ => 1, validity := fun p => p == 0 } }

/-- A batch whose tag is outside the supported set. -/
def wIntervalBatch : InputVector :=
  { typeId := .INTERVAL
    data := fun _ => .fixed 0
    vdata := { sel := fun p => p, validity := fun _ => true } }

/-- An all-valid INTEGER batch holding the value 7 in every slot. -/
def wIntBatch : InputVector :=
  { typeId := .INTEGER
    data := fun _ => .fixed 7
    vdata := { sel := fun p => p, validity := fun _ => true } }

/-- An all-valid VARCHAR batch holding the empty string in every slot. -/
def wStrBatch : InputVector :=
  { typeId := .VARCHAR
    data := fun _ => .varlen []
    vdata := { sel := fun p => p, validity := fun _ => true } }

/-- An all-valid seed column holding zero in every slot. -/
def wZeroSeed : SeedVector :=
  { data := fun _ => 0
    vdata := { sel := fun p => p, validity := fun _ => true } }

/-- An all-valid seed column holding 42 in every slot. -/
def wSeed42 : SeedVector :=
  { data := fun _ => 42
    vdata := { sel := fun p => p, validity := fun _ => true } }

/-- Every value of the modelled mixer is below its modulus. -/
theorem mixFold_lt (mult m acc : Nat) (bs : Bytes) (hm : 0 < m) :
    mixFold mult m acc bs < m := by
  induction bs generalizing acc with
  | nil => exact Nat.mod_lt _ hm
  | cons b rest ih => exact ih _

/-- A low word below two to the 64 is recovered by reducing the combined
128-bit integer modulo two to the 64. -/
theorem lowhigh_mod (low high : Nat) (h : low < 2 ^ 64) :
    (low + 2 ^ 64 * high) % 2 ^ 64 = low := by
  rw [Nat.add_mul_mod_self_left, Nat.mod_eq_of_lt h]

/-- A high word is recovered by dividing the combined 128-bit integer by two
to the 64 when the low word is below two to the 64. -/
theorem lowhigh_div (low high : Nat) (h : low < 2 ^ 64) :
    (low + 2 ^ 64 * high) / 2 ^ 64 = high := by
  rw [Nat.add_mul_div_left _ _ (by positivity), Nat.div_eq_of_lt h, Nat.zero_add]

/-- Reading a mapped range at an in-bounds index yields the mapped value. -/
theorem range_map_get {α : Type} (f : Nat → α) (rc i : Nat) (h : i < rc) :
    ((List.range rc).map f)[i]? = some (f i) := by
  rw [List.getElem?_map, List.getElem?_range h]
  rfl

/-- The seeded call chain at seed zero agrees with the unseeded call chain:
XXH32, XXH64 and MurmurHash3 receive the same zero literal, and the unseeded
XXH3 and rapidhash entries equal their seeded entries at seed zero. -/
theorem hashBytesSeeded_zero (alg : HashAlgorithm) (bs : Bytes) :
    hashBytesSeeded alg bs 0 = hashBytesNoSeed alg bs := by
  cases alg <;> rfl

/-- Canonical form of the unseeded type switch: a tag outside the supported
set errors, a supported tag maps its extraction strategy over the rows. -/
theorem dispatch_rows_eq (alg : HashAlgorithm) (args : InputVector) (rc : Nat) :
    dispatch_rows alg args rc =
      match extractor args.typeId with
      | none => .error (unsupportedMsg args.typeId)
      | some ext =>
          .ok ((List.range rc).map (fun i =>
            if !(args.vdata.validity i) then none
            else some (hashBytesNoSeed alg (ext (args.data (args.vdata.sel i)))))) := by
  rcases args with ⟨tid, d, vd⟩
  cases tid <;> rfl

/-- Canonical form of the seeded type switch. -/
theorem dispatch_rows_with_seed_eq (alg : HashAlgorithm) (args : InputVector)
    (rc : Nat) (sv : SeedVector) :
    dispatch_rows_with_seed alg args rc sv =
      match extractor args.typeId with
      | none => .error (unsupportedMsg args.typeId)
      | some ext =>
          .ok ((List.range rc).map (fun i =>
            if !(args.vdata.validity i) || !(sv.vdata.validity i) then none
            else some (hashBytesSeeded alg (ext (args.data (args.vdata.sel i)))
              (sv.data (sv.vdata.sel i))))) := by
  rcases args with ⟨tid, d, vd⟩
  cases tid <;> rfl

/-- A tag outside the supported set selects no extraction strategy. -/
theorem extractor_eq_none (tid : LogicalTypeId) (h : isSupportedType tid = false) :
    extractor tid = none := by
  cases tid <;> first | rfl | simp [isSupportedType] at h

/-- A supported tag selects an extraction strategy. -/
theorem extractor_eq_some (tid : LogicalTypeId) (h : isSupportedType tid = true) :
    ∃ ext, extractor tid = some ext := by
  cases tid <;> first | exact ⟨_, rfl⟩ | simp [isSupportedType] at h

/-- C1: the claim states that for every batch the validity bit of logical row
i is read at the physical slot sel i.  On c1Batch logical row 0 resolves to
physical slot 1, whose validity bit is clear, yet the dispatcher reads the
bit at position 0, treats the row as valid and hashes the bytes of slot 1:
the validity read is not resolved through the Row Indirection Map. -/
theorem c1_validity_read_not_resolved :
    c1Batch.vdata.validity (c1Batch.vdata.sel 0) = false ∧
    c1Batch.vdata.validity 0 = true ∧
    hashfunc_generic .XXH32 c1Batch 1 =
      .ok { vtype := .CONSTANT_VECTOR
            rows := [some (.D32 (XXH32 (toLEBytes 4 11) 0))] } :=
  ⟨rfl, rfl, rfl⟩

/-- C2: the claim states that a null input row always yields an invalid
output row with no digest.  On c2Batch the value of logical row 0 is null
(physical slot 1 has its validity bit clear), yet the unseeded dispatcher
reads the bit at logical position 0, finds it set, computes a digest over the
bytes of the null slot and leaves the output row valid. -/
theorem c2_null_input_row_hashed :
    c2Batch.vdata.validity (c2Batch.vdata.sel 0) = false ∧
    hashfunc_generic .XXH64 c2Batch 1 =
      .ok { vtype := .CONSTANT_VECTOR
            rows := [some (.D64 (XXH64 (toLEBytes 8 250) 0))] } :=
  ⟨rfl, rfl⟩

/-- C3: the claim states that a null seed row suppresses extraction and
hashing and invalidates the output row.  On c3Batch with c3Seed the seed of
logical row 0 is null (physical slot 1 has its validity bit clear), yet the
seeded dispatcher reads the bit at logical position 0, finds it set, and
hashes the row with the seed value 42 read from the null physical slot. -/
theorem c3_null_seed_row_hashed :
    c3Seed.vdata.validity (c3Seed.vdata.sel 0) = false ∧
    hashfunc_generic_with_seed .XXH32 c3Batch 1 c3Seed =
      .ok { vtype := .CONSTANT_VECTOR
            rows := [some (.D32 (XXH32 (toLEBytes 4 9) 42))] } :=
  ⟨rfl, rfl⟩

/-- The seeded type switch under an all-valid all-zero seed column collapses
to the unseeded type switch. -/
theorem dispatch_rows_with_seed_zero_seed (alg : HashAlgorithm)
    (args : InputVector) (rc : Nat) (sv : SeedVector)
    (hd : ∀ p, sv.data p = 0) (hv : ∀ p, sv.vdata.validity p = true) :
    dispatch_rows_with_seed alg args rc sv = dispatch_rows alg args rc := by
  rw [dispatch_rows_with_seed_eq, dispatch_rows_eq]
  cases hext : extractor args.typeId with
  | none => rfl
  | some ext =>
    refine congrArg Except.ok (congrArg (fun f => List.map f (List.range rc)) ?_)
    funext i
    rw [hv i, hd (sv.vdata.sel i)]
    simp [hashBytesSeeded_zero]

/-- C4: for every algorithm, batch and row count, the seeded dispatcher fed a
seed column that is valid everywhere and holds zero everywhere produces
exactly the output of the unseeded dispatcher. -/
theorem c4_noseed_equals_zero_seed (alg : HashAlgorithm) (args : InputVector)
    (rc : Nat) (sv : SeedVector)
    (hd : ∀ p, sv.data p = 0) (hv : ∀ p, sv.vdata.validity p = true) :
    hashfunc_generic_with_seed alg args rc sv = hashfunc_generic alg args rc := by
  unfold hashfunc_generic_with_seed hashfunc_generic
  rw [dispatch_rows_with_seed_zero_seed alg args rc sv hd hv]

/-- C4 witness: the seeded dispatcher with the all-zero seed column equals
the unseeded dispatcher on a concrete two-row integer batch. -/
theorem c4_noseed_equals_zero_seed_witness :
    hashfunc_generic_with_seed .XXH3_64 wIntBatch 2 wZeroSeed =
      hashfunc_generic .XXH3_64 wIntBatch 2 :=
  c4_noseed_equals_zero_seed .XXH3_64 wIntBatch 2 wZeroSeed
    (fun _ => rfl) (fun _ => rfl)

/-- C5 counterexample: a zero-row batch whose type tag is outside the
supported set does not fail; the empty-chunk early return produces an empty
constant output before the type switch runs, so the claim as stated, that
every batch of an unsupported tag fails, is false at this input. -/
theorem c5_counterexample_zero_row_unsupported :
    isSupportedType wIntervalBatch.typeId = false ∧
    hashfunc_generic .XXH32 wIntervalBatch 0 =
      .ok { vtype := .CONSTANT_VECTOR, rows := [] } ∧
    hashfunc_generic_with_seed .XXH32 wIntervalBatch 0 wZeroSeed =
      .ok { vtype := .CONSTANT_VECTOR, rows := [] } :=
  ⟨rfl, rfl, rfl⟩

/-- C5 amended: for every batch with at least one row whose tag is outside
the supported set, both dispatchers fail with the UnsupportedType error and
produce no rows; for every batch of a supported tag neither dispatcher ever
raises an error. -/
theorem c5_unsupported_type_fails_whole_batch (alg : HashAlgorithm)
    (args : InputVector) (rc : Nat) (sv : SeedVector) :
    (rc ≠ 0 → isSupportedType args.typeId = false →
      hashfunc_generic alg args rc = .error (unsupportedMsg args.typeId) ∧
      hashfunc_generic_with_seed alg args rc sv = .error (unsupportedMsg args.typeId)) ∧
    (isSupportedType args.typeId = true →
      (∃ r, hashfunc_generic alg args rc = .ok r) ∧
      (∃ r, hashfunc_generic_with_seed alg args rc sv = .ok r)) := by
  constructor
  · intro hrc hun
    have hnone := extractor_eq_none _ hun
    constructor
    · unfold hashfunc_generic
      rw [if_neg hrc, dispatch_rows_eq, hnone]
    · unfold hashfunc_generic_with_seed
      rw [if_neg hrc, dispatch_rows_with_seed_eq, hnone]
  · intro hsup
    obtain ⟨ext, hext⟩ := extractor_eq_some _ hsup
    constructor
    · unfold hashfunc_generic
      by_cases h0 : rc = 0
      · exact ⟨_, by rw [if_pos h0]⟩
      · rw [if_neg h0, dispatch_rows_eq, hext]
        exact ⟨_, rfl⟩
    · unfold hashfunc_generic_with_seed
      by_cases h0 : rc = 0
      · exact ⟨_, by rw [if_pos h0]⟩
      · rw [if_neg h0, dispatch_rows_with_seed_eq, hext]
        exact ⟨_, rfl⟩

/-- C5 witness: on a concrete one-row batch of the unsupported INTERVAL tag
the unseeded dispatcher fails with the UnsupportedType error. -/
theorem c5_unsupported_type_fails_whole_batch_witness :
    hashfunc_generic .XXH32 wIntervalBatch 1 =
      .error "Unsupported type for XXH hash: INTERVAL" :=
  ((c5_unsupported_type_fails_whole_batch .XXH32 wIntervalBatch 1 wZeroSeed).1
    (by decide) rfl).1

/-- C6: for every algorithm, every batch and every seed column, a zero-row
call returns a zero-row output in the constant representation with no error
and no row processed, in both dispatchers. -/
theorem c6_empty_batch_constant_output (alg : HashAlgorithm)
    (args : InputVector) (sv : SeedVector) :
    hashfunc_generic alg args 0 =
      .ok { vtype := .CONSTANT_VECTOR, rows := [] } ∧
    hashfunc_generic_with_seed alg args 0 sv =
      .ok { vtype := .CONSTANT_VECTOR, rows := [] } :=
  ⟨rfl, rfl⟩

/-- C7: collapsing a one-row output to the constant representation is purely
representational: for every algorithm and every supported tag, the single
output row of a one-row batch equals the output row a batch of any size
produces at logical position i when the rows agree, that is when the validity
bits consulted and the physically selected values (and, for the seeded
dispatcher, the seed bits and physically selected seed values) coincide. -/
theorem c7_single_row_constant_collapse (alg : HashAlgorithm)
    (b1 b2 : InputVector) (s1 s2 : SeedVector) (rc2 i : Nat)
    (htype : b1.typeId = b2.typeId)
    (hsup : isSupportedType b1.typeId = true)
    (hi : i < rc2)
    (hv : b1.vdata.validity 0 = b2.vdata.validity i)
    (hd : b1.data (b1.vdata.sel 0) = b2.data (b2.vdata.sel i))
    (hsv : s1.vdata.validity 0 = s2.vdata.validity i)
    (hsd : s1.data (s1.vdata.sel 0) = s2.data (s2.vdata.sel i)) :
    ∃ r1 r2 q1 q2,
      hashfunc_generic alg b1 1 = .ok r1 ∧
      hashfunc_generic alg b2 rc2 = .ok r2 ∧
      r1.vtype = .CONSTANT_VECTOR ∧
      r1.rows[0]? = r2.rows[i]? ∧
      hashfunc_generic_with_seed alg b1 1 s1 = .ok q1 ∧
      hashfunc_generic_with_seed alg b2 rc2 s2 = .ok q2 ∧
      q1.vtype = .CONSTANT_VECTOR ∧
      q1.rows[0]? = q2.rows[i]? := by
  have h2 : rc2 ≠ 0 := by omega
  obtain ⟨ext, hext⟩ := extractor_eq_some _ hsup
  have hext2 : extractor b2.typeId = some ext := by rw [← htype]; exact hext
  have e1 : hashfunc_generic alg b1 1 = .ok
      { vtype := .CONSTANT_VECTOR
        rows := (List.range 1).map (fun j =>
          if !(b1.vdata.validity j) then none
          else some (hashBytesNoSeed alg (ext (b1.data (b1.vdata.sel j))))) } := by
    unfold hashfunc_generic
    rw [dispatch_rows_eq, hext]
    rfl
  have e2 : hashfunc_generic alg b2 rc2 = .ok
      { vtype := if rc2 = 1 then VectorType.CONSTANT_VECTOR else VectorType.FLAT_VECTOR
        rows := (List.range rc2).map (fun j =>
          if !(b2.vdata.validity j) then none
          else some (hashBytesNoSeed alg (ext (b2.data (b2.vdata.sel j))))) } := by
    unfold hashfunc_generic
    rw [if_neg h2, dispatch_rows_eq, hext2]
  have e3 : hashfunc_generic_with_seed alg b1 1 s1 = .ok
      { vtype := .CONSTANT_VECTOR
        rows := (List.range 1).map (fun j =>
          if !(b1.vdata.validity j) || !(s1.vdata.validity j) then none
          else some (hashBytesSeeded alg (ext (b1.data (b1.vdata.sel j)))
            (s1.data (s1.vdata.sel j)))) } := by
    unfold hashfunc_generic_with_seed
    rw [dispatch_rows_with_seed_eq, hext]
    rfl
  have e4 : hashfunc_generic_with_seed alg b2 rc2 s2 = .ok
      { vtype := if rc2 = 1 then VectorType.CONSTANT_VECTOR else VectorType.FLAT_VECTOR
        rows := (List.range rc2).map (fun j =>
          if !(b2.vdata.validity j) || !(s2.vdata.validity j) then none
          else some (hashBytesSeeded alg (ext (b2.data (b2.vdata.sel j)))
            (s2.data (s2.vdata.sel j)))) } := by
    unfold hashfunc_generic_with_seed
    rw [if_neg h2, dispatch_rows_with_seed_eq, hext2]
  refine ⟨_, _, _, _, e1, e2, rfl, ?_, e3, e4, rfl, ?_⟩
  · show ((List.range 1).map (fun j =>
        if !(b1.vdata.validity j) then none
        else some (hashBytesNoSeed alg (ext (b1.data (b1.vdata.sel j))))))[0]? =
      ((List.range rc2).map (fun j =>
        if !(b2.vdata.validity j) then none
        else some (hashBytesNoSeed alg (ext (b2.data (b2.vdata.sel j))))))[i]?
    rw [range_map_get _ 1 0 (by omega), range_map_get _ rc2 i hi]
    simp only [hv, hd]
  · show ((List.range 1).map (fun j =>
        if !(b1.vdata.validity j) || !(s1.vdata.validity j) then none
        else some (hashBytesSeeded alg (ext (b1.data (b1.vdata.sel j)))
          (s1.data (s1.vdata.sel j)))))[0]? =
      ((List.range rc2).map (fun j =>
        if !(b2.vdata.validity j) || !(s2.vdata.validity j) then none
        else some (hashBytesSeeded alg (ext (b2.data (b2.vdata.sel j)))
          (s2.data (s2.vdata.sel j)))))[i]?
    rw [range_map_get _ 1 0 (by omega), range_map_get _ rc2 i hi]
    simp only [hv, hd, hsv, hsd]

/-- C7 witness: on a concrete integer batch, the single constant output row
of the one-row call equals row 1 of the three-row call, in both dispatchers. -/
theorem c7_single_row_constant_collapse_witness :
    ∃ r1 r2 q1 q2,
      hashfunc_generic .XXH32 wIntBatch 1 = .ok r1 ∧
      hashfunc_generic .XXH32 wIntBatch 3 = .ok r2 ∧
      r1.vtype = .CONSTANT_VECTOR ∧
      r1.rows[0]? = r2.rows[1]? ∧
      hashfunc_generic_with_seed .XXH32 wIntBatch 1 wSeed42 = .ok q1 ∧
      hashfunc_generic_with_seed .XXH32 wIntBatch 3 wSeed42 = .ok q2 ∧
      q1.vtype = .CONSTANT_VECTOR ∧
      q1.rows[0]? = q2.rows[1]? :=
  c7_single_row_constant_collapse .XXH32 wIntBatch wIntBatch wSeed42 wSeed42 3 1
    rfl rfl (by omega) rfl rfl rfl rfl

/-- C8: for each 128-bit algorithm, the digest is stored in the output
element as a pair of 64-bit halves with the low half first: the lower field
of the stored uhugeint_t is the 128-bit digest reduced modulo two to the 64
and the upper field is the digest divided by two to the 64, in both the
seeded and the unseeded call chains. -/
theorem c8_128bit_low_half_first (alg : HashAlgorithm) (bs : Bytes) (seed : Nat)
    (h : digestBits alg = 128) :
    ∃ u w : uhugeint_t,
      hashBytesNoSeed alg bs = .D128 u ∧
      hashBytesSeeded alg bs seed = .D128 w ∧
      u.lower = digest128Seeded alg bs 0 % 2 ^ 64 ∧
      u.upper = digest128Seeded alg bs 0 / 2 ^ 64 ∧
      w.lower = digest128Seeded alg bs seed % 2 ^ 64 ∧
      w.upper = digest128Seeded alg bs seed / 2 ^ 64 := by
  cases alg <;> first
    | exact absurd h (by decide)
    | exact ⟨_, _, rfl, rfl,
        (lowhigh_mod _ _ (mixFold_lt _ _ _ _ (by positivity))).symm,
        (lowhigh_div _ _ (mixFold_lt _ _ _ _ (by positivity))).symm,
        (lowhigh_mod _ _ (mixFold_lt _ _ _ _ (by positivity))).symm,
        (lowhigh_div _ _ (mixFold_lt _ _ _ _ (by positivity))).symm⟩

/-- C8 witness: the halves law at the concrete input bytes 1, 2, 3 with seed
7 for the XXH3 128-bit algorithm. -/
theorem c8_128bit_low_half_first_witness :
    ∃ u w : uhugeint_t,
      hashBytesNoSeed .XXH3_128 [1, 2, 3] = .D128 u ∧
      hashBytesSeeded .XXH3_128 [1, 2, 3] 7 = .D128 w ∧
      u.lower = digest128Seeded .XXH3_128 [1, 2, 3] 0 % 2 ^ 64 ∧
      u.upper = digest128Seeded .XXH3_128 [1, 2, 3] 0 / 2 ^ 64 ∧
      w.lower = digest128Seeded .XXH3_128 [1, 2, 3] 7 % 2 ^ 64 ∧
      w.upper = digest128Seeded .XXH3_128 [1, 2, 3] 7 / 2 ^ 64 :=
  c8_128bit_low_half_first .XXH3_128 [1, 2, 3] 7 rfl

/-- C9: for every algorithm, a valid zero-length variable-length value is
hashed, not nulled: the output row is valid and holds the digest of the
empty byte sequence (the unseeded digest, or the seeded digest of the empty
sequence under the row seed when a seed column is supplied), and no error is
raised. -/
theorem c9_empty_value_hashes (alg : HashAlgorithm) (args : InputVector)
    (sv : SeedVector) (rc i : Nat)
    (ht : args.typeId = .VARCHAR ∨ args.typeId = .BLOB)
    (hi : i < rc)
    (hval : args.vdata.validity i = true)
    (hdat : args.data (args.vdata.sel i) = .varlen [])
    (hsval : sv.vdata.validity i = true) :
    (∃ r, hashfunc_generic alg args rc = .ok r ∧
      r.rows[i]? = some (some (hashBytesNoSeed alg []))) ∧
    (∃ r, hashfunc_generic_with_seed alg args rc sv = .ok r ∧
      r.rows[i]? = some (some (hashBytesSeeded alg [] (sv.data (sv.vdata.sel i))))) := by
  have h0 : rc ≠ 0 := by omega
  have hext : extractor args.typeId = some varBytes := by
    rcases ht with h | h <;> rw [h] <;> rfl
  constructor
  · have e : hashfunc_generic alg args rc = .ok
        { vtype := if rc = 1 then VectorType.CONSTANT_VECTOR else VectorType.FLAT_VECTOR
          rows := (List.range rc).map (fun j =>
            if !(args.vdata.validity j) then none
            else some (hashBytesNoSeed alg (varBytes (args.data (args.vdata.sel j))))) } := by
      unfold hashfunc_generic
      rw [if_neg h0, dispatch_rows_eq, hext]
    refine ⟨_, e, ?_⟩
    show ((List.range rc).map (fun j =>
        if !(args.vdata.validity j) then none
        else some (hashBytesNoSeed alg (varBytes (args.data (args.vdata.sel j))))))[i]? =
      some (some (hashBytesNoSeed alg []))
    rw [range_map_get _ rc i hi]
    simp [hval, hdat, varBytes]
  · have e : hashfunc_generic_with_seed alg args rc sv = .ok
        { vtype := if rc = 1 then VectorType.CONSTANT_VECTOR else VectorType.FLAT_VECTOR
          rows := (List.range rc).map (fun j =>
            if !(args.vdata.validity j) || !(sv.vdata.validity j) then none
            else some (hashBytesSeeded alg (varBytes (args.data (args.vdata.sel j)))
              (sv.data (sv.vdata.sel j)))) } := by
      unfold hashfunc_generic_with_seed
      rw [if_neg h0, dispatch_rows_with_seed_eq, hext]
    refine ⟨_, e, ?_⟩
    show ((List.range rc).map (fun j =>
        if !(args.vdata.validity j) || !(sv.vdata.validity j) then none
        else some (hashBytesSeeded alg (varBytes (args.data (args.vdata.sel j)))
          (sv.data (sv.vdata.sel j)))))[i]? =
      some (some (hashBytesSeeded alg [] (sv.data (sv.vdata.sel i))))
    rw [range_map_get _ rc i hi]
    simp [hval, hsval, hdat, varBytes]

/-- C9 witness: the empty string at row 0 of a concrete two-row VARCHAR batch
hashes to the digest of the empty byte sequence under the 128-bit x64
MurmurHash3 variant, in both dispatchers. -/
theorem c9_empty_value_hashes_witness :
    (∃ r, hashfunc_generic .MURMURHASH3_X64_128 wStrBatch 2 = .ok r ∧
      r.rows[0]? = some (some (hashBytesNoSeed .MURMURHASH3_X64_128 []))) ∧
    (∃ r, hashfunc_generic_with_seed .MURMURHASH3_X64_128 wStrBatch 2 wSeed42 = .ok r ∧
      r.rows[0]? = some (some (hashBytesSeeded .MURMURHASH3_X64_128 [] 42))) :=
  c9_empty_value_hashes .MURMURHASH3_X64_128 wStrBatch wSeed42 2 0
    (Or.inl rfl) (by omega) rfl rfl rfl

/-- C10: for every algorithm and every batch whose tag is outside the
supported set, a zero-row call still returns the empty constant output with
no error, in both dispatchers: the zero-row early return precedes the type
switch, so the UnsupportedType check is never reached for empty batches. -/
theorem c10_zero_rows_skip_type_check (alg : HashAlgorithm)
    (args : InputVector) (sv : SeedVector)
    (_h : isSupportedType args.typeId = false) :
    hashfunc_generic alg args 0 =
      .ok { vtype := .CONSTANT_VECTOR, rows := [] } ∧
    hashfunc_generic_with_seed alg args 0 sv =
      .ok { vtype := .CONSTANT_VECTOR, rows := [] } :=
  ⟨rfl, rfl⟩

/-- C10 witness: the zero-row call on the concrete INTERVAL batch succeeds in
both dispatchers although the tag is unsupported. -/
theorem c10_zero_rows_skip_type_check_witness :
    hashfunc_generic .XXH64 wIntervalBatch 0 =
      .ok { vtype := .CONSTANT_VECTOR, rows := [] } ∧
    hashfunc_generic_with_seed .XXH64 wIntervalBatch 0 wZeroSeed =
      .ok { vtype := .CONSTANT_VECTOR, rows := [] } :=
  c10_zero_rows_skip_type_check .XXH64 wIntervalBatch wZeroSeed rfl
